import Mathlib

/- Verification of the solar-plotter G-code correction program
   (adjust_for_sun.py): a shallow embedding of its vector math kernel,
   solar geometry model, offset calculator and streaming G-code rewrite
   engine, together with theorems settling the specification claims.

   Numbers: the source computes with Python floats; the embedding uses
   exact real arithmetic (ℝ), with exact rationals (ℚ) for the purely
   rational engine quantities (unit conversions, feed rates) so that the
   lexer stays executable.  Fallible operations (normalize of the zero
   vector, line parallel to plane, float() parse errors, ZeroDivisionError,
   TypeError on applying None) are modeled as Option, with none standing
   for the aborting exception. -/

namespace Solar

/- ## Module-level constants of the source -/

/-- Conversion factor from inches to meters (`INCH_TO_METER = 0.0254`). -/
def INCH_TO_METER : ℚ := 0.0254


/-- Inches-per-minute to meters-per-second (`IPM_TO_MPS`). -/
def IPM_TO_MPS : ℚ := INCH_TO_METER / 60


/-- Rapid-traverse speed used for G0 moves (`G0_METERS_PER_SECOND`). -/
def G0_METERS_PER_SECOND : ℚ := 60 * IPM_TO_MPS


/-- Degrees-to-radians factor (`DEG_TO_RAD`). -/
noncomputable def DEG_TO_RAD : ℝ := Real.pi / 180


/-- Seconds in a day (`DAY_TO_SEC`). -/
def DAY_TO_SEC : ℝ := 24 * 60 * 60


/-- Mean Earth-Sun distance in meters (`EARTH_SUN_DIST_M`). -/
def EARTH_SUN_DIST_M : ℝ := 149597887.5 * 1000


/-- Earth's axial inclination in radians (`EARTH_INCLINATION`). -/
noncomputable def EARTH_INCLINATION : ℝ := 23.4 * DEG_TO_RAD


/-- Earth radius in meters (`EARTH_RADIUS_M`). -/
def EARTH_RADIUS_M : ℝ := 6371 * 1000


/-- Magnifier mounting height in meters (`MAG_HEIGHT_M`). -/
def MAG_HEIGHT_M : ℝ := 0.40


/-- Effective latitude after the module-level overwrites (Santa Cruz),
converted to radians. -/
noncomputable def LATITUDE : ℝ := 36.974 * DEG_TO_RAD


/-- Effective longitude after the module-level overwrites (Santa Cruz),
converted to radians. -/
noncomputable def LONGITUDE : ℝ := -122.029 * DEG_TO_RAD


/- ## Vector math kernel (the source uses 3-tuples of floats) -/

/-- Three-dimensional vector. -/
@[ext]

structure Vec3 where
  x : ℝ
  y : ℝ
  z : ℝ


/-- Componentwise sum (`add`). -/
def add (a b : Vec3) : Vec3 :=
  ⟨a.x + b.x, a.y + b.y, a.z + b.z⟩


/-- Componentwise difference (`subtract`). -/
def subtract (a b : Vec3) : Vec3 :=
  ⟨a.x - b.x, a.y - b.y, a.z - b.z⟩


/-- Dot product (`dot`). -/
def dot (b c : Vec3) : ℝ :=
  b.x * c.x + b.y * c.y + b.z * c.z


/-- Euclidean length (`get_length`). -/
noncomputable def get_length (a : Vec3) : ℝ :=
  Real.sqrt (dot a a)


/-- Scalar multiple (`scalar_multiply`, written `e*s` componentwise in the
source); the source's version works on tuples of any arity, see
`scalar_multiply_list` for the list form used on bounds and offsets. -/
def scalar_multiply (s : ℝ) (a : Vec3) : Vec3 :=
  ⟨a.x * s, a.y * s, a.z * s⟩


/-- The source's `scalar_multiply` applied to a tuple of arbitrary arity
(`tuple([e*s for e in a])`). -/
def scalar_multiply_list (s : ℝ) (a : List ℝ) : List ℝ :=
  a.map (fun e => e * s)


/-- Right-handed cross product (`cross_product`). -/
def cross_product (b c : Vec3) : Vec3 :=
  ⟨b.y * c.z - b.z * c.y, b.z * c.x - b.x * c.z, b.x * c.y - b.y * c.x⟩


/-- Unit vector in the direction of `a`, or none for the zero vector
(`normalize`). -/
noncomputable def normalize (a : Vec3) : Option Vec3 :=
  if get_length a = 0 then none
  else some (scalar_multiply (1 / get_length a) a)


/-- Spherical-to-Cartesian conversion (`polar_to_cartesian`). -/
noncomputable def polar_to_cartesian (radius longitude latitude : ℝ) : Vec3 :=
  ⟨radius * Real.cos longitude * Real.cos latitude,
   radius * Real.sin longitude * Real.cos latitude,
   radius * Real.sin latitude⟩


/-- Line-plane intersection expressed in the plane's 2D basis (`project`).
Given the line through `p` along `v` and the plane through `o` with normal
`z` and in-plane basis `x`, `y`, returns none when the line is parallel to
the plane. -/
noncomputable def project (p v o x y z : Vec3) : Option (ℝ × ℝ) :=
  let dot_vz := dot v z
  if dot_vz = 0 then none
  else
    let t := -dot (subtract p o) z / dot_vz
    let q := add p (scalar_multiply t v)
    let dq := subtract q o
    some (dot dq x, dot dq y)


/-- Modelled from the spec's words (for comparison with `project`, claim
C5): no result exactly when `dot(v,z) = 0`; otherwise the pair
`(dot(q-o,x), dot(q-o,y))` where `q = p + t·v`, `t = -dot(p-o,z)/dot(v,z)`. -/
noncomputable def projectSpec (p v o x y z : Vec3) : Option (ℝ × ℝ) :=
  if dot v z = 0 then none
  else
    let t := -dot (subtract p o) z / dot v z
    let q := add p (scalar_multiply t v)
    some (dot (subtract q o) x, dot (subtract q o) y)


/- ## Solar geometry model -/

/-- Seasonal solar declination (`get_sun_inclination`): a cosine wave
anchored at the winter solstice, day -9. -/
noncomputable def get_sun_inclination (max_inclination day_of_year : ℝ) : ℝ :=
  -Real.cos ((day_of_year - (-9)) / 365 * 2 * Real.pi) * max_inclination


/-- Sun position in the Earth-centered frame (`get_sun_pos`).  The source
reads the day of year from the host clock inside this function; the clock
is an external collaborator, so the day is passed as an argument. -/
noncomputable def get_sun_pos (longitude time_since_midnight_s day_of_year : ℝ) : Vec3 :=
  let radians_since_midnight := -time_since_midnight_s / DAY_TO_SEC * 2 * Real.pi
  let sun_inclination := get_sun_inclination EARTH_INCLINATION day_of_year
  polar_to_cartesian EARTH_SUN_DIST_M
    (longitude + Real.pi + radians_since_midnight) sun_inclination


/-- The initial board frame (`get_initial_position` returns the tuple
`(mag_pos, board, board_x, board_y, board_z)`). -/
structure Frame where
  magPos : Vec3
  board : Vec3
  boardX : Vec3
  boardY : Vec3
  boardZ : Vec3


/-- Initial frame computation (`get_initial_position`).  In the source a
normalization returning None makes the subsequent arithmetic raise a
TypeError, aborting the run; the abort is modeled as none. -/
noncomputable def get_initial_position (longitude latitude time_since_midnight_s day_of_year : ℝ) :
    Option Frame :=
  match normalize (subtract (get_sun_pos longitude time_since_midnight_s day_of_year)
      (polar_to_cartesian EARTH_RADIUS_M longitude latitude)) with
  | none => none
  | some mag_to_sun =>
    match normalize mag_to_sun with
    | none => none
    | some board_z =>
      match normalize (cross_product (polar_to_cartesian EARTH_RADIUS_M longitude latitude)
          board_z) with
      | none => none
      | some board_x =>
        match normalize (cross_product board_z board_x) with
        | none => none
        | some board_y =>
          some { magPos := polar_to_cartesian EARTH_RADIUS_M longitude latitude,
                 board := subtract (polar_to_cartesian EARTH_RADIUS_M longitude latitude)
                   (scalar_multiply MAG_HEIGHT_M mag_to_sun),
                 boardX := board_x, boardY := board_y, boardZ := board_z }


/-- Offset calculator (`get_offset`).  The source reads the module-level
`LONGITUDE` here; the location configuration is an external collaborator,
so the longitude is passed as an argument.  A None from `normalize` would
make `project` raise a TypeError in the source; modeled as none. -/
noncomputable def get_offset (longitude : ℝ) (fr : Frame) (time_since_midnight_s day_of_year : ℝ) :
    Option (ℝ × ℝ) :=
  match normalize (subtract (get_sun_pos longitude time_since_midnight_s day_of_year)
      fr.magPos) with
  | none => none
  | some mag_to_sun =>
    project fr.magPos mag_to_sun fr.board fr.boardX fr.boardY fr.boardZ


/-- Magnifier position of the witness frame. -/
noncomputable def magW : Vec3 := ⟨EARTH_RADIUS_M, 0, 0⟩


/-- Sun position at the witness instant. -/
noncomputable def sunW : Vec3 :=
  ⟨-(EARTH_SUN_DIST_M * Real.cos EARTH_INCLINATION), 0,
   -(EARTH_SUN_DIST_M * Real.sin EARTH_INCLINATION)⟩


/-- Magnifier-to-sun difference vector at the witness instant. -/
noncomputable def deltaW : Vec3 :=
  ⟨-(EARTH_SUN_DIST_M * Real.cos EARTH_INCLINATION) - EARTH_RADIUS_M, 0,
   -(EARTH_SUN_DIST_M * Real.sin EARTH_INCLINATION)⟩


/-- Normalized magnifier-to-sun direction of the witness frame. -/
noncomputable def mW : Vec3 := scalar_multiply (1 / get_length deltaW) deltaW


/-- Unnormalized board x-axis of the witness frame. -/
noncomputable def c3W : Vec3 := ⟨0, -(EARTH_RADIUS_M * mW.z), 0⟩


/-- Board x-axis of the witness frame. -/
noncomputable def xW : Vec3 := scalar_multiply (1 / get_length c3W) c3W


/-- Unnormalized board y-axis of the witness frame. -/
noncomputable def c4W : Vec3 := cross_product mW xW


/-- Board y-axis of the witness frame. -/
noncomputable def yW : Vec3 := scalar_multiply (1 / get_length c4W) c4W


/-- The witness frame itself. -/
noncomputable def frW : Frame :=
  { magPos := magW, board := subtract magW (scalar_multiply MAG_HEIGHT_M mW),
    boardX := xW, boardY := yW, boardZ := mW }


/- ## G-code rewrite engine: lexer (`parse_g_code`, per-character loop)

   The per-line scanner of `parse_g_code` is a small state machine over the
   states None/comment/parsing_g/parsing_x/parsing_y/parsing_f.  Feed rates
   and parsed coordinate tokens are exact rationals; `float(vs)` raising
   ValueError on a malformed accumulator is modeled as none. -/

inductive LexState
  | neutral
  | comment
  | parsingG
  | parsingX
  | parsingY
  | parsingF
deriving DecidableEq


/-- Characters accumulated by the X/Y/F states (`"0123456789+-."`). -/
def accumChars : List Char := "0123456789+-.".toList


def allDigits (cs : List Char) : Bool :=
  cs.all (fun c => decide ('0' ≤ c ∧ c ≤ '9'))


def digitsToNat (cs : List Char) : ℕ :=
  cs.foldl (fun acc c => acc * 10 + (c.toNat - 48)) 0


/-- Decimal parse of an unsigned accumulator string, as accepted by
Python's `float` on the alphabet `[0-9+-.]`: digits, an optional single
dot, at least one digit overall. -/
def parseUnsigned (cs : List Char) : Option ℚ :=
  let ip := cs.takeWhile (fun c => c != '.')
  let rest := cs.dropWhile (fun c => c != '.')
  match rest with
  | [] => if ip ≠ [] ∧ allDigits ip then some (digitsToNat ip : ℚ) else none
  | _ :: frac =>
    if allDigits ip ∧ allDigits frac ∧ (ip ≠ [] ∨ frac ≠ []) then
      some ((digitsToNat ip : ℚ) + (digitsToNat frac : ℚ) / (10 : ℚ) ^ frac.length)
    else none


/-- Python's `float(vs)` on the accumulator alphabet: optional sign, then
an unsigned decimal; none models the ValueError abort. -/
def parseFloat : List Char → Option ℚ
  | '+' :: rest => parseUnsigned rest
  | '-' :: rest => (parseUnsigned rest).map (fun q => -q)
  | cs => parseUnsigned cs


/-- Per-line scanner state.  `state`, `vs`, `suppress` are the loop locals
of the source; `g` and `f` are the run-level modal motion code and feed
rate (mutated in place during the scan); `sx`/`sy` are `specified_x` and
`specified_y` (already converted to meters); `sf` records the value of the
line's last feed-rate assignment (the source's `specified_f` is declared
but never written, the f assignment happens inline; `sf` makes that
assignment visible to the statements); `comments` are the strings written
to the output during the scan; `newLine` is the output buffer. -/
structure Scan where
  state : LexState
  vs : List Char
  suppress : Bool
  g : Option ℤ
  f : ℚ
  sx : Option ℚ
  sy : Option ℚ
  sf : Option ℚ
  comments : List String
  newLine : List Char
deriving DecidableEq


/-- State-dispatch part of one character of the source's per-character
loop (everything before the final `if not suppress: new_line += ch`). -/
def lexStep1 (fmt : ℚ → String) (sc : Scan) (ch : Char) : Option Scan :=
  let uch := ch.toUpper
  match sc.state with
    | LexState.neutral =>
      if ch = '(' then some { sc with state := LexState.comment }
      else if uch = 'G' then some { sc with state := LexState.parsingG, g := some 0 }
      else if uch = 'X' then some { sc with state := LexState.parsingX, vs := [], suppress := true }
      else if uch = 'Y' then some { sc with state := LexState.parsingY, vs := [], suppress := true }
      else if uch = 'F' then some { sc with state := LexState.parsingF, vs := [] }
      else some sc
    | LexState.comment =>
      if ch = ')' then some { sc with state := LexState.neutral } else some sc
    | LexState.parsingG =>
      if '0' ≤ ch ∧ ch ≤ '9' then
        some { sc with g := sc.g.map (fun n => n * 10 + ((ch.toNat : ℤ) - 48)) }
      else some { sc with state := LexState.neutral }
    | LexState.parsingX =>
      if ch ∈ accumChars then some { sc with vs := sc.vs ++ [ch] }
      else
        match parseFloat sc.vs with
        | none => none
        | some q =>
          some { sc with
                 sx := some (q * INCH_TO_METER)
                 suppress := false
                 state := LexState.neutral }
    | LexState.parsingY =>
      if ch ∈ accumChars then some { sc with vs := sc.vs ++ [ch] }
      else
        match parseFloat sc.vs with
        | none => none
        | some q =>
          some { sc with
                 sy := some (q * INCH_TO_METER)
                 suppress := false
                 state := LexState.neutral }
    | LexState.parsingF =>
      if ch ∈ accumChars then some { sc with vs := sc.vs ++ [ch] }
      else
        match parseFloat sc.vs with
        | none => none
        | some q =>
          some { sc with
                 f := q * IPM_TO_MPS
                 sf := some (q * IPM_TO_MPS)
                 comments := sc.comments ++
                   ["(f is now " ++ fmt (q * IPM_TO_MPS) ++ ", text was " ++
                    String.mk sc.vs ++ ")\n"]
                 suppress := false
                 state := LexState.neutral }
/-- One character of the source's per-character loop: the state dispatch
above followed by `if not suppress: new_line += ch`. -/
def lexStep (fmt : ℚ → String) (sc : Scan) (ch : Char) : Option Scan :=
  match lexStep1 fmt sc ch with
  | none => none
  | some sc1 =>
    some (if sc1.suppress then sc1 else { sc1 with newLine := sc1.newLine ++ [ch] })


/-- The whole per-character loop over a line. -/
def lexLine (fmt : ℚ → String) : List Char → Scan → Option Scan
  | [], sc => some sc
  | ch :: rest, sc =>
    match lexStep fmt sc ch with
    | none => none
    | some sc1 => lexLine fmt rest sc1


/-- Loop locals as reset at the top of each line (`state = None`,
`vs = ""`, `suppress = False`, the specified coordinates cleared), with the
run-level `g` and `f` carried in. -/
def initScan (g : Option ℤ) (f : ℚ) : Scan :=
  { state := LexState.neutral, vs := [], suppress := false, g := g, f := f,
    sx := none, sy := none, sf := none, comments := [], newLine := [] }


/-- State-only projection of the scanner's transition (used to express
which lines contain no G/X/Y/F tokens). -/
def stepState (st : LexState) (ch : Char) : LexState :=
  match st with
  | LexState.neutral =>
    if ch = '(' then LexState.comment
    else if ch.toUpper = 'G' then LexState.parsingG
    else if ch.toUpper = 'X' then LexState.parsingX
    else if ch.toUpper = 'Y' then LexState.parsingY
    else if ch.toUpper = 'F' then LexState.parsingF
    else LexState.neutral
  | LexState.comment => if ch = ')' then LexState.neutral else LexState.comment
  | LexState.parsingG =>
    if '0' ≤ ch ∧ ch ≤ '9' then LexState.parsingG else LexState.neutral
  | LexState.parsingX =>
    if ch ∈ accumChars then LexState.parsingX else LexState.neutral
  | LexState.parsingY =>
    if ch ∈ accumChars then LexState.parsingY else LexState.neutral
  | LexState.parsingF =>
    if ch ∈ accumChars then LexState.parsingF else LexState.neutral


/-- A line contains no G/X/Y/F tokens when the scanner, started in the
given state, never leaves the Neutral/InComment states. -/
def tokenFree : LexState → List Char → Bool
  | _, [] => true
  | st, ch :: rest =>
    let st1 := stepState st ch
    (decide (st1 = LexState.neutral) || decide (st1 = LexState.comment)) && tokenFree st1 rest


/-- A whole line, scanned from Neutral, containing no G/X/Y/F tokens. -/
def tokenFreeLine (cs : List Char) : Bool := tokenFree LexState.neutral cs


/- ## G-code rewrite engine: per-line kinematics -/

/-- Running bounds (`bounds`), in meters. -/
structure Bounds where
  minX : ℝ
  minY : ℝ
  maxX : ℝ
  maxY : ℝ


/-- Run-level engine state: modal motion code `g`, tracked coordinates
`x`, `y` (meters), sticky feed rate `f` (meters/second), elapsed machine
time `t` (seconds), running `bounds`, and `last_offset`. -/
structure RunState where
  g : Option ℤ
  x : ℝ
  y : ℝ
  f : ℚ
  t : ℝ
  bounds : Bounds
  lastOffset : Option (ℝ × ℝ)


/-- Initial bounds `(999999, 999999, -999999, -999999)`. -/
noncomputable def initBounds : Bounds := ⟨999999, 999999, -999999, -999999⟩


/-- Engine state at the start of a run: `g = None`, `x = y = 0`,
`f = G0_METERS_PER_SECOND`, `t = 0`, initial bounds, no last offset. -/
noncomputable def initState : RunState :=
  { g := none, x := 0, y := 0, f := G0_METERS_PER_SECOND, t := 0,
    bounds := initBounds, lastOffset := none }


/-- Resolution of an optional specified coordinate against the tracked one
(G-code's modal positioning). -/
noncomputable def resolveCoord (spec : Option ℚ) (cur : ℝ) : ℝ :=
  match spec with
  | some q => (q : ℝ)
  | none => cur


/-- Python's `str.strip()`: leading and trailing whitespace removed. -/
def stripBoth (cs : List Char) : List Char :=
  ((cs.dropWhile Char.isWhitespace).reverse.dropWhile Char.isWhitespace).reverse


/-- Trailing-whitespace-only trim (the spec's wording for claim C6). -/
def stripTrailing (cs : List Char) : List Char :=
  (cs.reverse.dropWhile Char.isWhitespace).reverse


/-- Modelled from the spec's words for claim C6: the rewritten line is the
preserved literal text trimmed of trailing whitespace only (leading
whitespace retained), followed by the canonical coordinate tokens with the
corrected values re-expressed in the input's unit, followed by a
newline. -/
noncomputable def rewrittenLineClaim (fmtCoord : ℝ → String) (newLine : List Char)
    (nx ny : ℝ) : String :=
  String.mk (stripTrailing newLine) ++ " X" ++ fmtCoord (nx / (INCH_TO_METER : ℝ)) ++
    " Y" ++ fmtCoord (ny / (INCH_TO_METER : ℝ)) ++ "\n"


/-- One line of `parse_g_code`'s main loop: scan the line, and when it
specified X and/or Y, query the offset, correct the coordinates, update
elapsed time and bounds, and rebuild the line.  Returns the new run state
and the strings written to the output for this line, in order; none models
the aborting exceptions (ValueError from `float`, TypeError from applying
a None offset, ZeroDivisionError from a zero effective feed rate).
Formatting of numbers into diagnostic text (`%g`, `%f`,
`printable_seconds`) is external output plumbing, passed in as `fmt`
(rationals), `fmtR` (reals), `fmtTime` (elapsed seconds) and `fmtCoord`
(coordinates); the offset calculator is passed in as `oracle`, applied to
`runStartTime + elapsedMachineTime` (see `parse_g_code` below for its
instantiation with `get_offset`). -/
noncomputable def processLine (fmt : ℚ → String) (fmtR : ℝ → String)
    (fmtTime : ℝ → String) (fmtCoord : ℝ → String)
    (oracle : ℝ → Option (ℝ × ℝ)) (t0 : ℝ) (rs : RunState) (line : List Char) :
    Option (RunState × List String) :=
  match lexLine fmt line (initScan rs.g rs.f) with
  | none => none
  | some sc =>
    if sc.sx.isSome || sc.sy.isSome then
      match oracle (t0 + rs.t) with
      | none => none
      | some off =>
        let new_x := resolveCoord sc.sx rs.x - off.1
        let new_y := resolveCoord sc.sy rs.y - off.2
        let dist := get_length (subtract ⟨rs.x, rs.y, 0⟩ ⟨new_x, new_y, 0⟩)
        let eff : ℚ := if sc.g = some 0 then G0_METERS_PER_SECOND else sc.f
        if eff = 0 then none
        else
          let op_time := dist / (eff : ℝ)
          let new_t := rs.t + op_time
          let new_bounds :=
            if sc.g = some 1 then
              { minX := min (min rs.bounds.minX rs.x) new_x,
                minY := min (min rs.bounds.minY rs.y) new_y,
                maxX := max (max rs.bounds.maxX rs.x) new_x,
                maxY := max (max rs.bounds.maxY rs.y) new_y }
            else rs.bounds
          let outLine := String.mk (stripBoth sc.newLine) ++
            " X" ++ fmtCoord (new_x / (INCH_TO_METER : ℝ)) ++
            " Y" ++ fmtCoord (new_y / (INCH_TO_METER : ℝ)) ++ "\n"
          some ({ g := sc.g, x := new_x, y := new_y, f := sc.f, t := new_t,
                  bounds := new_bounds, lastOffset := some off },
                sc.comments ++
                  ["(dist = " ++ fmtR dist ++ ", effective_f = " ++ fmt eff ++
                     ", op_time = " ++ fmtR op_time ++ ")\n",
                   "(Time is " ++ fmtTime new_t ++ ")\n",
                   outLine])
    else
      some ({ rs with g := sc.g, f := sc.f },
            sc.comments ++ ["(Time is " ++ fmtTime rs.t ++ ")\n", String.mk sc.newLine])


/-- The engine's loop over all input lines. -/
noncomputable def runLines (fmt : ℚ → String) (fmtR : ℝ → String)
    (fmtTime : ℝ → String) (fmtCoord : ℝ → String)
    (oracle : ℝ → Option (ℝ × ℝ)) (t0 : ℝ) :
    RunState → List (List Char) → Option (RunState × List String)
  | rs, [] => some (rs, [])
  | rs, l :: ls =>
    match processLine fmt fmtR fmtTime fmtCoord oracle t0 rs l with
    | none => none
    | some (rs1, out) =>
      match runLines fmt fmtR fmtTime fmtCoord oracle t0 rs1 ls with
      | none => none
      | some (rs2, outs) => some (rs2, out ++ outs)


/-- End-of-run last-offset summary: `scalar_multiply(1/INCH_TO_METER,
last_offset)`.  The source's `scalar_multiply` iterates over its tuple
argument, so passing `last_offset = None` raises a TypeError; modeled as
none. -/
noncomputable def summaryOffset (rs : RunState) : Option (List ℝ) :=
  rs.lastOffset.map (fun o => scalar_multiply_list (1 / (INCH_TO_METER : ℝ)) [o.1, o.2])


/-- The whole `parse_g_code` run: establish the initial frame from the
configured location, process every line with the offset calculator as the
oracle (queried at `time_since_midnight_s + t`, same day of year), and
perform the end-of-run summary.  The rewritten output (first component) is
complete and flushed before the summary (second component) is attempted. -/
noncomputable def parse_g_code (fmt : ℚ → String) (fmtR : ℝ → String)
    (fmtTime : ℝ → String) (fmtCoord : ℝ → String)
    (time_since_midnight_s day_of_year : ℝ) (lines : List (List Char)) :
    Option (List String × Option (List ℝ)) :=
  match get_initial_position LONGITUDE LATITUDE time_since_midnight_s day_of_year with
  | none => none
  | some fr =>
    match runLines fmt fmtR fmtTime fmtCoord
        (fun tm => get_offset LONGITUDE fr tm day_of_year)
        time_since_midnight_s initState lines with
    | none => none
    | some (rs, out) => some (out, summaryOffset rs)


/- ## Concrete fixtures for witnesses and counterexamples -/

/-- Formatting stub for rationals (diagnostic text is irrelevant to the
properties; a constant formatter keeps the strings concrete). -/
def fmtQ0 : ℚ → String := fun _ => ""


/-- Formatting stub for reals. -/
def fmtR0 : ℝ → String := fun _ => ""


/-- Formatting stub for elapsed time. -/
def fmtT0 : ℝ → String := fun _ => ""


/-- Formatting stub for coordinates. -/
def fmtC0 : ℝ → String := fun _ => "q"


/-- Offset oracle that always answers (0, 0) (the exact value of the real
offset at the frame's own instant, by claim C4). -/
noncomputable def orZero : ℝ → Option (ℝ × ℝ) := fun _ => some (0, 0)


/-- Offset oracle whose query yields no result (line parallel to the board
plane). -/
def orNone : ℝ → Option (ℝ × ℝ) := fun _ => none


/-- Offset query made by the rewrite engine at the very instant and day the
frame of `gip_start` was established. -/
noncomputable def offsetAtStart : Option (ℝ × ℝ) :=
  (get_initial_position 0 0 0 356).bind (fun fr => get_offset 0 fr 0 356)

/- ## Concrete input lines, scans and engine states used by witnesses and
   counterexamples -/

/-- Input line without separation between the G, X and Y tokens. -/
def lineC1 : List Char := "G1X2.0Y3.0\n".toList

/-- Minimal motion line specifying only X. -/
def lineX1 : List Char := "X1\n".toList

/-- Motion line with leading whitespace and literal text before the X token. -/
def lineMX1 : List Char := " M3 X1\n".toList

/-- Feed-rate declaration line with no X/Y. -/
def lineF10 : List Char := "F10.0\n".toList

/-- Negative feed-rate declaration line. -/
def lineFneg : List Char := "F-60\n".toList

/-- Line with a comment and literal text, no G/X/Y/F tokens. -/
def lineC8 : List Char := "(m3) q\n".toList

/-- Scanner state mid-way through a G token (motion code 1 accumulated). -/
def scC1w : Scan :=
  { state := LexState.parsingG, vs := [], suppress := false, g := some 1, f := 0,
    sx := none, sy := none, sf := none, comments := [], newLine := [] }

/-- Scan result of `lineC1` (the token-packed line `G1X2.0Y3.0`) from the
initial run state: the X value is lost (its terminating role consumed the
`X`, and the text `X2.0` stays in the literal buffer), while the Y token,
entered from Neutral after the plain digit `0`, is parsed to
3.0 in = 381/5000 m. -/
def scC1 : Scan :=
  { state := LexState.neutral, vs := "3.0".toList, suppress := false, g := some 1,
    f := G0_METERS_PER_SECOND, sx := none, sy := some (381/5000), sf := none,
    comments := [], newLine := "G1X2.0\n".toList }

/-- Scan result of `lineX1` from the initial run state. -/
def scX1 : Scan :=
  { state := LexState.neutral, vs := ['1'], suppress := false, g := none,
    f := G0_METERS_PER_SECOND, sx := some (127/5000), sy := none, sf := none,
    comments := [], newLine := ['\n'] }

/-- Scan result of `lineX1` when the sticky feed rate is zero. -/
def scX1f0 : Scan := { scX1 with f := 0 }

/-- Scan result of `lineMX1` from the initial run state. -/
def scMX1 : Scan :=
  { state := LexState.neutral, vs := ['1'], suppress := false, g := none,
    f := G0_METERS_PER_SECOND, sx := some (127/5000), sy := none, sf := none,
    comments := [], newLine := " M3 \n".toList }

/-- Scan result of `lineF10`. -/
def scF10 : Scan :=
  { state := LexState.neutral, vs := "10.0".toList, suppress := false, g := none,
    f := 127/30000, sx := none, sy := none, sf := some (127/30000),
    comments := ["(f is now , text was 10.0)\n"], newLine := "F10.0\n".toList }

/-- Scan result of `lineFneg`. -/
def scFneg : Scan :=
  { state := LexState.neutral, vs := "-60".toList, suppress := false, g := none,
    f := -(127/5000), sx := none, sy := none, sf := some (-(127/5000)),
    comments := ["(f is now , text was -60)\n"], newLine := "F-60\n".toList }

/-- Initial run state that already has a previous valid offset on record. -/
noncomputable def rsPrev : RunState := { initState with lastOffset := some (3, 4) }

/-- Initial run state whose sticky feed rate has been set to zero. -/
noncomputable def rsF0 : RunState := { initState with f := 0 }

/-- Engine state after processing `lineMX1` from the initial state with a
zero offset. -/
noncomputable def rsMX1 : RunState :=
  { g := none, x := 127/5000, y := 0, f := G0_METERS_PER_SECOND, t := 1,
    bounds := initBounds, lastOffset := some (0, 0) }

/-- Output of processing `lineMX1` from the initial state (constant
formatting stubs). -/
def outMX1 : List String :=
  ["(dist = , effective_f = , op_time = )\n", "(Time is )\n", "M3 Xq Yq\n"]

/-- Engine state after processing `lineF10` from the initial state. -/
noncomputable def rsF10 : RunState := { initState with f := 127/30000 }

/-- Elapsed machine time after running the given lines from the initial
state with the zero-offset oracle and the constant formatting stubs. -/
noncomputable def runT (lines : List (List Char)) : Option ℝ :=
  (runLines fmtQ0 fmtR0 fmtT0 fmtC0 orZero 0 initState lines).map (fun pr => pr.1.t)

/-- Engine state after processing `lineFneg` from the initial state: the
sticky feed rate is now negative. -/
noncomputable def rsFneg : RunState := { initState with f := -(127/5000) }

/-- Output of processing `lineFneg` from the initial state. -/
def outFneg : List String :=
  ["(f is now , text was -60)\n", "(Time is )\n", "F-60\n"]

/-- Scan result of `lineX1` when the sticky feed rate is negative. -/
def scX1neg : Scan := { scX1 with f := -(127/5000) }

/-- Engine state after processing `lineX1` from `rsFneg`: the elapsed
machine time has gone backwards to -1. -/
noncomputable def rsC7 : RunState :=
  { g := none, x := 127/5000, y := 0, f := -(127/5000), t := -1,
    bounds := initBounds, lastOffset := some (0, 0) }

/-- Output of processing `lineX1` from `rsFneg`. -/
def outX1neg : List String :=
  ["(dist = , effective_f = , op_time = )\n", "(Time is )\n", " Xq Yq\n"]

/-- Invariant tying the ghost `sf` field to the scanner's real effects: when
the line's last feed-rate assignment is recorded, the sticky feed rate holds
exactly that value and the feed-rate bookkeeping comment has been emitted. -/
def sfInv (sc : Scan) : Prop :=
  ∀ v : ℚ, sc.sf = some v → sc.f = v ∧ sc.comments ≠ []

/- ## Theorems -/

theorem getLast?_append_three {α : Type} (l : List α) (a b c : α) :
    (l ++ [a, b, c]).getLast? = some c := by
  rw [show l ++ [a, b, c] = (l ++ [a, b]) ++ [c] by simp]
  exact List.getLast?_concat _


/- ## Basic vector lemmas -/

theorem dot_self_nonneg (a : Vec3) : 0 ≤ dot a a := by
  unfold dot
  nlinarith [sq_nonneg a.x, sq_nonneg a.y, sq_nonneg a.z]


theorem get_length_sq (a : Vec3) : get_length a ^ 2 = dot a a := by
  unfold get_length
  exact Real.sq_sqrt (dot_self_nonneg a)


theorem get_length_ne_zero_of_dot_pos {a : Vec3} (h : 0 < dot a a) :
    get_length a ≠ 0 :=
  ne_of_gt (Real.sqrt_pos.mpr h)


theorem normalize_eq_some {a b : Vec3} (h : normalize a = some b) :
    get_length a ≠ 0 ∧ b = scalar_multiply (1 / get_length a) a := by
  unfold normalize at h
  by_cases hz : get_length a = 0
  · rw [if_pos hz] at h; cases h
  · rw [if_neg hz] at h
    exact ⟨hz, (Option.some.inj h).symm⟩


/- ## Claim C5 -/

/-- Claim C5: `project(p, v, o, x, y, z)` returns no result exactly when
`dot(v, z) = 0`, and otherwise returns `(dot(q-o,x), dot(q-o,y))` where
`q = p + t·v` with `t = -dot(p-o,z)/dot(v,z)`, i.e. the intersection of
the line with the plane expressed in the plane basis (the spec-side
formula is `projectSpec`). -/
theorem claim_C5 (p v o x y z : Vec3) :
    project p v o x y z = projectSpec p v o x y z := rfl


/- ## Claim C4 -/

/-- Claim C4: for every non-degenerate frame produced by
`get_initial_position` (all three normalizations succeed), `get_offset`
evaluated on that frame at the same instant and the same day of year is
exactly the zero 2D vector: the board starts perfectly aligned with the
sun. -/
theorem claim_C4 (lon lat t0 d : ℝ) (fr : Frame)
    (h : get_initial_position lon lat t0 d = some fr) :
    get_offset lon fr t0 d = some (0, 0) := by
  unfold get_initial_position at h
  split at h
  · cases h
  rename_i m hm
  split at h
  · cases h
  rename_i z hz
  split at h
  · cases h
  rename_i bx hx
  split at h
  · cases h
  rename_i By hy
  injection h with h
  subst h
  unfold get_offset
  simp only
  rw [hm]
  obtain ⟨hmlen, hzval⟩ := normalize_eq_some hz
  have hmm : dot m m = get_length m ^ 2 := (get_length_sq m).symm
  have hdz : dot m z = get_length m := by
    rw [hzval]
    unfold dot at hmm
    unfold dot scalar_multiply
    simp only
    field_simp
    nlinarith [hmm]
  have hdznz : dot m z ≠ 0 := by rw [hdz]; exact hmlen
  unfold project
  simp only [if_neg hdznz]
  set mag := polar_to_cartesian EARTH_RADIUS_M lon lat with hmag
  have hpo : subtract mag (subtract mag (scalar_multiply MAG_HEIGHT_M m)) =
      scalar_multiply MAG_HEIGHT_M m := by
    unfold subtract scalar_multiply
    ext <;> (simp only; ring)
  rw [hpo]
  have hsc : dot (scalar_multiply MAG_HEIGHT_M m) z = MAG_HEIGHT_M * dot m z := by
    unfold dot scalar_multiply; simp only; ring
  have ht : -dot (scalar_multiply MAG_HEIGHT_M m) z / dot m z = -MAG_HEIGHT_M := by
    rw [hsc]
    field_simp
  rw [ht]
  have hq : subtract (add mag (scalar_multiply (-MAG_HEIGHT_M) m))
      (subtract mag (scalar_multiply MAG_HEIGHT_M m)) = ⟨0, 0, 0⟩ := by
    unfold add subtract scalar_multiply
    ext <;> (simp only; ring)
  rw [hq]
  have hzero : ∀ w : Vec3, dot ⟨0, 0, 0⟩ w = 0 := by
    intro w; unfold dot; simp
  rw [hzero, hzero]


/- ## Concrete non-degenerate frame (longitude 0, latitude 0, midnight,
   day-of-year 356), used to witness claim C4 -/

theorem gip_eq_some (lon lat t0 d : ℝ) {m z bx By : Vec3}
    (h1 : normalize (subtract (get_sun_pos lon t0 d)
        (polar_to_cartesian EARTH_RADIUS_M lon lat)) = some m)
    (h2 : normalize m = some z)
    (h3 : normalize (cross_product (polar_to_cartesian EARTH_RADIUS_M lon lat) z) = some bx)
    (h4 : normalize (cross_product z bx) = some By) :
    get_initial_position lon lat t0 d =
      some { magPos := polar_to_cartesian EARTH_RADIUS_M lon lat,
             board := subtract (polar_to_cartesian EARTH_RADIUS_M lon lat)
               (scalar_multiply MAG_HEIGHT_M m),
             boardX := bx, boardY := By, boardZ := z } := by
  unfold get_initial_position
  simp only [h1, h2, h3, h4]


theorem earth_inclination_pos : 0 < EARTH_INCLINATION := by
  unfold EARTH_INCLINATION DEG_TO_RAD
  positivity


theorem earth_inclination_lt_pi : EARTH_INCLINATION < Real.pi := by
  unfold EARTH_INCLINATION DEG_TO_RAD
  nlinarith [Real.pi_pos]


theorem sin_earth_inclination_pos : 0 < Real.sin EARTH_INCLINATION :=
  Real.sin_pos_of_pos_of_lt_pi earth_inclination_pos earth_inclination_lt_pi


theorem magW_eq : polar_to_cartesian EARTH_RADIUS_M 0 0 = magW := by
  unfold polar_to_cartesian magW
  ext <;> simp


theorem sunW_eq : get_sun_pos 0 0 356 = sunW := by
  unfold get_sun_pos get_sun_inclination polar_to_cartesian sunW DAY_TO_SEC
  norm_num [Real.cos_two_pi, Real.cos_pi, Real.sin_pi, Real.cos_neg, Real.sin_neg]


theorem deltaW_eq :
    subtract (get_sun_pos 0 0 356) (polar_to_cartesian EARTH_RADIUS_M 0 0) = deltaW := by
  rw [sunW_eq, magW_eq]
  unfold subtract sunW magW deltaW
  ext <;> simp


theorem deltaW_z_ne : deltaW.z ≠ 0 := by
  unfold deltaW
  simp only
  have h : 0 < EARTH_SUN_DIST_M * Real.sin EARTH_INCLINATION :=
    mul_pos (by unfold EARTH_SUN_DIST_M; norm_num) sin_earth_inclination_pos
  exact ne_of_lt (by linarith)


theorem deltaW_dot_pos : 0 < dot deltaW deltaW := by
  have h1 : 0 < deltaW.z * deltaW.z := mul_self_pos.mpr deltaW_z_ne
  unfold dot
  nlinarith [mul_self_nonneg deltaW.x, mul_self_nonneg deltaW.y]


theorem deltaW_len_ne : get_length deltaW ≠ 0 :=
  get_length_ne_zero_of_dot_pos deltaW_dot_pos


theorem normalize_deltaW : normalize deltaW = some mW := by
  unfold normalize mW
  rw [if_neg deltaW_len_ne]


theorem mW_y : mW.y = 0 := by
  unfold mW scalar_multiply deltaW
  simp


theorem mW_z_ne : mW.z ≠ 0 := by
  unfold mW scalar_multiply
  simp only
  exact mul_ne_zero deltaW_z_ne (one_div_ne_zero deltaW_len_ne)


theorem mW_dot : dot mW mW = 1 := by
  have hL2 : get_length deltaW ^ 2 = dot deltaW deltaW := get_length_sq _
  have hL := deltaW_len_ne
  unfold dot at hL2
  unfold mW dot scalar_multiply
  simp only
  field_simp
  nlinarith [hL2]


theorem mW_len : get_length mW = 1 := by
  unfold get_length
  rw [mW_dot]
  exact Real.sqrt_one


theorem normalize_mW : normalize mW = some mW := by
  have hne : get_length mW ≠ 0 := by rw [mW_len]; norm_num
  unfold normalize
  rw [if_neg hne, mW_len]
  congr 1
  ext <;> simp [scalar_multiply]


theorem c3W_eq : cross_product magW mW = c3W := by
  unfold cross_product magW c3W
  ext <;> simp [mW_y]


theorem c3W_y_ne : -(EARTH_RADIUS_M * mW.z) ≠ 0 := by
  have hR : (EARTH_RADIUS_M : ℝ) ≠ 0 := by unfold EARTH_RADIUS_M; norm_num
  exact neg_ne_zero.mpr (mul_ne_zero hR mW_z_ne)


theorem c3W_dot_pos : 0 < dot c3W c3W := by
  unfold dot c3W
  simp only
  nlinarith [mul_self_pos.mpr c3W_y_ne]


theorem c3W_len_ne : get_length c3W ≠ 0 :=
  get_length_ne_zero_of_dot_pos c3W_dot_pos


theorem normalize_c3W : normalize c3W = some xW := by
  unfold normalize xW
  rw [if_neg c3W_len_ne]


theorem xW_x : xW.x = 0 := by
  unfold xW scalar_multiply c3W
  simp


theorem xW_z : xW.z = 0 := by
  unfold xW scalar_multiply c3W
  simp


theorem xW_y_ne : xW.y ≠ 0 := by
  unfold xW scalar_multiply c3W
  simp only
  exact mul_ne_zero c3W_y_ne (one_div_ne_zero c3W_len_ne)


theorem c4W_dot_pos : 0 < dot c4W c4W := by
  have hms : mW.x * mW.x + mW.z * mW.z = 1 := by
    have h := mW_dot
    unfold dot at h
    rw [mW_y] at h
    nlinarith [h]
  have hxy : 0 < xW.y * xW.y := mul_self_pos.mpr xW_y_ne
  have key : (mW.x * mW.x + mW.z * mW.z) * (xW.y * xW.y) = xW.y * xW.y := by
    rw [hms]; ring
  unfold c4W cross_product dot
  simp only [mW_y, xW_x, xW_z]
  nlinarith [hxy, key]


theorem c4W_len_ne : get_length c4W ≠ 0 :=
  get_length_ne_zero_of_dot_pos c4W_dot_pos


theorem normalize_c4W : normalize c4W = some yW := by
  unfold normalize yW
  rw [if_neg c4W_len_ne]


theorem gip_start : get_initial_position 0 0 0 356 = some frW := by
  have h1 : normalize (subtract (get_sun_pos 0 0 356)
      (polar_to_cartesian EARTH_RADIUS_M 0 0)) = some mW := by
    rw [deltaW_eq]; exact normalize_deltaW
  have h3 : normalize (cross_product (polar_to_cartesian EARTH_RADIUS_M 0 0) mW) = some xW := by
    rw [magW_eq, c3W_eq]; exact normalize_c3W
  have h4 : normalize (cross_product mW xW) = some yW := normalize_c4W
  have h := gip_eq_some 0 0 0 356 h1 normalize_mW h3 h4
  rw [h]
  unfold frW
  rw [magW_eq]


/-- Witness for claim C4: the concrete non-degenerate frame at longitude 0,
latitude 0, midnight, day 356 exists, and the offset evaluated on it at the
same instant and day is exactly (0, 0). -/
theorem claim_C4_witness : offsetAtStart = some (0, 0) := by
  unfold offsetAtStart
  rw [gip_start]
  simpa using claim_C4 0 0 0 356 frW gip_start

/- ## Lexer evaluations on the concrete lines -/

theorem lex_lineX1 : lexLine fmtQ0 lineX1 (initScan none G0_METERS_PER_SECOND) = some scX1 := by
  simp [lineX1, lexLine, lexStep, lexStep1, initScan, parseFloat, parseUnsigned, accumChars, allDigits,
        digitsToNat, fmtQ0, scX1]
  norm_num [G0_METERS_PER_SECOND, IPM_TO_MPS, INCH_TO_METER]

theorem lex_lineX1_f0 : lexLine fmtQ0 lineX1 (initScan none 0) = some scX1f0 := by
  simp [lineX1, lexLine, lexStep, lexStep1, initScan, parseFloat, parseUnsigned, accumChars, allDigits,
        digitsToNat, fmtQ0, scX1f0, scX1]
  norm_num [INCH_TO_METER]

theorem lex_lineMX1 :
    lexLine fmtQ0 lineMX1 (initScan none G0_METERS_PER_SECOND) = some scMX1 := by
  simp [lineMX1, lexLine, lexStep, lexStep1, initScan, parseFloat, parseUnsigned, accumChars, allDigits,
        digitsToNat, fmtQ0, scMX1]
  norm_num [G0_METERS_PER_SECOND, IPM_TO_MPS, INCH_TO_METER]

theorem lex_lineF10 :
    lexLine fmtQ0 lineF10 (initScan none G0_METERS_PER_SECOND) = some scF10 := by
  simp [lineF10, lexLine, lexStep, lexStep1, initScan, parseFloat, parseUnsigned, accumChars, allDigits,
        digitsToNat, fmtQ0, scF10]
  norm_num [G0_METERS_PER_SECOND, IPM_TO_MPS, INCH_TO_METER]

theorem lex_lineFneg :
    lexLine fmtQ0 lineFneg (initScan none G0_METERS_PER_SECOND) = some scFneg := by
  simp [lineFneg, lexLine, lexStep, lexStep1, initScan, parseFloat, parseUnsigned, accumChars, allDigits,
        digitsToNat, fmtQ0, scFneg]
  norm_num [G0_METERS_PER_SECOND, IPM_TO_MPS, INCH_TO_METER]

/- ## Claim C1 -/

theorem lex_lineC1 :
    lexLine fmtQ0 lineC1 (initScan none G0_METERS_PER_SECOND) = some scC1 := by
  simp [lineC1, lexLine, lexStep, lexStep1, initScan, parseFloat, parseUnsigned, accumChars,
        allDigits, digitsToNat, fmtQ0, scC1]
  norm_num [G0_METERS_PER_SECOND, IPM_TO_MPS, INCH_TO_METER]

/-- Claim C1 counterexample: the claim predicts that in `G1X2.0Y3.0` the
`X` terminating the G token is reprocessed in Neutral and starts its own
token, so that every token — the X value 2.0 in particular — is recognized.
In fact the scanner consumes the terminating character: `specified_x` stays
none, the motion code is 1, and the text `X2.0` survives verbatim in the
preserved literal buffer, whereas the `Y` token, entered from Neutral after
a plain digit, IS recognized (`specified_y` is 3.0 in = 381/5000 m). -/
theorem claim_C1_counterexample :
    (lexLine fmtQ0 lineC1 (initScan none G0_METERS_PER_SECOND)).map
      (fun sc => (sc.sx, sc.sy, sc.g, sc.newLine)) =
      some (none, some (381/5000), some 1, "G1X2.0\n".toList) := by
  rw [lex_lineC1]
  rfl

/-- Claim C1 amended: the character that terminates a ParsingG, ParsingX,
ParsingY or ParsingF token is consumed by the terminating step itself — the
lexer performs the state's terminating action (for X/Y/F: parsing the
accumulator and storing the value), returns to Neutral, and appends the
character to the output buffer, but it is not re-dispatched, so a token
letter that immediately terminates a previous token does not start its
own token. -/
theorem claim_C1_amended (fmt : ℚ → String) (sc : Scan) (ch : Char) :
    (sc.state = LexState.parsingG → ¬('0' ≤ ch ∧ ch ≤ '9') → sc.suppress = false →
      lexStep fmt sc ch =
        some { sc with state := LexState.neutral, newLine := sc.newLine ++ [ch] }) ∧
    (∀ q : ℚ, sc.state = LexState.parsingX → ch ∉ accumChars → parseFloat sc.vs = some q →
      lexStep fmt sc ch =
        some { sc with
               state := LexState.neutral
               sx := some (q * INCH_TO_METER)
               suppress := false
               newLine := sc.newLine ++ [ch] }) ∧
    (∀ q : ℚ, sc.state = LexState.parsingY → ch ∉ accumChars → parseFloat sc.vs = some q →
      lexStep fmt sc ch =
        some { sc with
               state := LexState.neutral
               sy := some (q * INCH_TO_METER)
               suppress := false
               newLine := sc.newLine ++ [ch] }) ∧
    (∀ q : ℚ, sc.state = LexState.parsingF → ch ∉ accumChars → parseFloat sc.vs = some q →
      lexStep fmt sc ch =
        some { sc with
               state := LexState.neutral
               f := q * IPM_TO_MPS
               sf := some (q * IPM_TO_MPS)
               comments := sc.comments ++
                 ["(f is now " ++ fmt (q * IPM_TO_MPS) ++ ", text was " ++
                  String.mk sc.vs ++ ")\n"]
               suppress := false
               newLine := sc.newLine ++ [ch] }) := by
  refine ⟨?_, ?_, ?_, ?_⟩
  · intro hst hdig hsup
    unfold lexStep lexStep1
    rw [hst]
    simp [hdig, hsup]
  · intro q hst hch hparse
    unfold lexStep lexStep1
    rw [hst]
    simp [hch, hparse]
  · intro q hst hch hparse
    unfold lexStep lexStep1
    rw [hst]
    simp [hch, hparse]
  · intro q hst hch hparse
    unfold lexStep lexStep1
    rw [hst]
    simp [hch, hparse]

/-- Witness for the amended claim C1: a scanner mid-way through `G1`, fed
the non-digit `X`, returns to Neutral with `X` emitted — it does not enter
ParsingX. -/
theorem claim_C1_witness :
    lexStep fmtQ0 scC1w 'X' =
      some { scC1w with state := LexState.neutral, newLine := ['X'] } :=
  (claim_C1_amended fmtQ0 scC1w 'X').1 rfl (by decide) rfl

/- ## Claim C2 -/

/-- Claim C2 amended: when the offset query for a motion line yields no
result, the unavailability is surfaced (the oracle answers none, never
(0,0)), but the engine does not fall back to the previous valid offset: it
applies the None offset, which aborts the run at that line (TypeError on
`offset[0]` in the source, none here). -/
theorem claim_C2_amended (fmt : ℚ → String) (fmtR fmtTime fmtCoord : ℝ → String)
    (oracle : ℝ → Option (ℝ × ℝ)) (t0 : ℝ) (rs : RunState) (line : List Char) (sc : Scan)
    (hlex : lexLine fmt line (initScan rs.g rs.f) = some sc)
    (hxy : (sc.sx.isSome || sc.sy.isSome) = true)
    (hor : oracle (t0 + rs.t) = none) :
    processLine fmt fmtR fmtTime fmtCoord oracle t0 rs line = none := by
  unfold processLine
  rw [hlex]
  simp only [hxy, if_true, hor]

/-- Claim C2 counterexample: a motion line whose offset query yields no
result, processed in a state that has a previous valid offset (3, 4) on
record.  The claim predicts the engine survives the line by reusing that
offset; in fact processing aborts (the source raises TypeError subscripting
None), producing no output for the line. -/
theorem claim_C2_counterexample :
    processLine fmtQ0 fmtR0 fmtT0 fmtC0 orNone 0 rsPrev lineX1 = none := by
  unfold processLine
  have hgf : rsPrev.g = none ∧ rsPrev.f = G0_METERS_PER_SECOND := ⟨rfl, rfl⟩
  rw [hgf.1, hgf.2, lex_lineX1]
  simp [scX1, orNone]

/-- Witness for the amended claim C2, at the initial state and the
X-only motion line. -/
theorem claim_C2_witness :
    processLine fmtQ0 fmtR0 fmtT0 fmtC0 orNone 0 initState lineX1 = none :=
  claim_C2_amended fmtQ0 fmtR0 fmtT0 fmtC0 orNone 0 initState lineX1 scX1
    lex_lineX1 (by decide) rfl

/- ## Claim C3 -/

/-- Claim C3: on a motion line specifying X and/or Y whose effective feed
rate is zero (motion code not 0 and sticky feed rate zero), the elapsed
machine time update `dist / effective_f` fails the run (ZeroDivisionError
in the source, none here) rather than producing an infinite, undefined or
NaN elapsed time. -/
theorem claim_C3 (fmt : ℚ → String) (fmtR fmtTime fmtCoord : ℝ → String)
    (oracle : ℝ → Option (ℝ × ℝ)) (t0 : ℝ) (rs : RunState) (line : List Char) (sc : Scan)
    (off : ℝ × ℝ)
    (hlex : lexLine fmt line (initScan rs.g rs.f) = some sc)
    (hxy : (sc.sx.isSome || sc.sy.isSome) = true)
    (hor : oracle (t0 + rs.t) = some off)
    (hg : sc.g ≠ some 0) (hf : sc.f = 0) :
    processLine fmt fmtR fmtTime fmtCoord oracle t0 rs line = none := by
  unfold processLine
  rw [hlex]
  simp only [hxy, if_true, hor]
  have heff : (if sc.g = some 0 then G0_METERS_PER_SECOND else sc.f) = 0 := by
    rw [if_neg hg]; exact hf
  simp only [heff, if_pos]

/-- Witness for claim C3: the initial state with sticky feed rate zero,
fed the X-only motion line with motion code still None and a zero offset,
aborts. -/
theorem claim_C3_witness :
    processLine fmtQ0 fmtR0 fmtT0 fmtC0 orZero 0 rsF0 lineX1 = none :=
  claim_C3 fmtQ0 fmtR0 fmtT0 fmtC0 orZero 0 rsF0 lineX1 scX1f0 (0, 0)
    lex_lineX1_f0 (by decide) rfl (by decide) rfl

/- ## Concrete engine evaluations -/

theorem get_length_nonneg (a : Vec3) : 0 ≤ get_length a :=
  Real.sqrt_nonneg _

theorem dist_127 :
    get_length (subtract ⟨(0:ℝ), 0, 0⟩ ⟨(127:ℝ)/5000, 0, 0⟩) = (127:ℝ)/5000 := by
  unfold get_length subtract dot
  norm_num
  rw [show (16129:ℝ) = 127^2 by norm_num, show (25000000:ℝ) = 5000^2 by norm_num,
      Real.sqrt_sq (by norm_num : (0:ℝ) ≤ 127), Real.sqrt_sq (by norm_num : (0:ℝ) ≤ 5000)]

theorem procMX1 :
    processLine fmtQ0 fmtR0 fmtT0 fmtC0 orZero 0 initState lineMX1 =
      some (rsMX1, outMX1) := by
  unfold processLine
  rw [show initState.g = none from rfl, show initState.f = G0_METERS_PER_SECOND from rfl,
      lex_lineMX1]
  simp only [scMX1, Option.isSome_some, Option.isSome_none, Bool.or_true, Bool.true_or,
             if_true, orZero, resolveCoord]
  norm_num [fmtR0, fmtT0, fmtC0, fmtQ0, stripBoth, initState, initBounds, dist_127,
            rsMX1, outMX1, G0_METERS_PER_SECOND, IPM_TO_MPS, INCH_TO_METER]
  decide

theorem lex_lineX1_fneg :
    lexLine fmtQ0 lineX1 (initScan none (-(127/5000))) = some scX1neg := by
  simp [lineX1, lexLine, lexStep, lexStep1, initScan, parseFloat, parseUnsigned, accumChars,
        allDigits, digitsToNat, fmtQ0, scX1neg, scX1]
  norm_num [INCH_TO_METER]

theorem procFneg :
    processLine fmtQ0 fmtR0 fmtT0 fmtC0 orZero 0 initState lineFneg =
      some (rsFneg, outFneg) := by
  unfold processLine
  rw [show initState.g = none from rfl, show initState.f = G0_METERS_PER_SECOND from rfl,
      lex_lineFneg]
  rfl

theorem procX1neg :
    processLine fmtQ0 fmtR0 fmtT0 fmtC0 orZero 0 rsFneg lineX1 =
      some (rsC7, outX1neg) := by
  unfold processLine
  rw [show rsFneg.g = none from rfl, show rsFneg.f = -(127/5000) from rfl,
      lex_lineX1_fneg]
  simp only [scX1neg, scX1, Option.isSome_some, Option.isSome_none, Bool.or_true,
             Bool.true_or, if_true, orZero, resolveCoord]
  rw [if_neg (by decide : ¬((none : Option ℤ) = some 0))]
  rw [if_neg (by norm_num : ¬(-(127/5000 : ℚ)) = 0)]
  rw [if_neg (by decide : ¬((none : Option ℤ) = some 1))]
  norm_num [fmtR0, fmtT0, fmtC0, fmtQ0, stripBoth, rsFneg, initState, initBounds, dist_127,
            rsC7, outX1neg, G0_METERS_PER_SECOND, IPM_TO_MPS, INCH_TO_METER]
  decide

/- ## Claim C6 -/

/-- Claim C6 amended: the rewritten output line for a motion line is the
preserved literal text trimmed of leading AND trailing whitespace (Python's
`strip()`), followed by a canonical ` X<value>` token and a canonical
` Y<value>` token — both always emitted once the line specified X and/or Y —
with the corrected values re-expressed in the input's linear unit, followed
by a newline. -/
theorem claim_C6_amended (fmt : ℚ → String) (fmtR fmtTime fmtCoord : ℝ → String)
    (oracle : ℝ → Option (ℝ × ℝ)) (t0 : ℝ) (rs : RunState) (line : List Char) (sc : Scan)
    (off : ℝ × ℝ) (rs1 : RunState) (out : List String)
    (hlex : lexLine fmt line (initScan rs.g rs.f) = some sc)
    (hxy : (sc.sx.isSome || sc.sy.isSome) = true)
    (hor : oracle (t0 + rs.t) = some off)
    (hres : processLine fmt fmtR fmtTime fmtCoord oracle t0 rs line = some (rs1, out)) :
    out.getLast? = some (String.mk (stripBoth sc.newLine) ++
      " X" ++ fmtCoord ((resolveCoord sc.sx rs.x - off.1) / (INCH_TO_METER : ℝ)) ++
      " Y" ++ fmtCoord ((resolveCoord sc.sy rs.y - off.2) / (INCH_TO_METER : ℝ)) ++ "\n") := by
  unfold processLine at hres
  rw [hlex] at hres
  simp only [hxy, if_true, hor] at hres
  by_cases heff : (if sc.g = some 0 then G0_METERS_PER_SECOND else sc.f) = 0
  · rw [if_pos heff] at hres; cases hres
  · rw [if_neg heff] at hres
    injection hres with hres
    injection hres with h1 h2
    rw [← h2]
    exact getLast?_append_three _ _ _ _

/-- Claim C6 counterexample: on the line ` M3 X1` (leading whitespace, then
literal text, then an X token), the engine's rewritten line is
`M3 Xq Yq\n` — the leading whitespace is stripped along with the trailing
whitespace — while the claim's trailing-only trim prescribes
` M3 Xq Yq\n`.  The two differ, so the claim is false as stated. -/
theorem claim_C6_counterexample :
    (processLine fmtQ0 fmtR0 fmtT0 fmtC0 orZero 0 initState lineMX1).map
      (fun pr => pr.2.getLast?) = some (some "M3 Xq Yq\n") ∧
    rewrittenLineClaim fmtC0 scMX1.newLine (127/5000) 0 = " M3 Xq Yq\n" ∧
    ("M3 Xq Yq\n" : String) ≠ " M3 Xq Yq\n" := by
  refine ⟨?_, ?_, by decide⟩
  · rw [procMX1]; rfl
  · rfl

/-- Witness for the amended claim C6, on the concrete line ` M3 X1` from
the initial state with a zero offset. -/
theorem claim_C6_witness :
    outMX1.getLast? = some (String.mk (stripBoth scMX1.newLine) ++
      " X" ++ fmtC0 ((resolveCoord scMX1.sx initState.x - 0) / (INCH_TO_METER : ℝ)) ++
      " Y" ++ fmtC0 ((resolveCoord scMX1.sy initState.y - 0) / (INCH_TO_METER : ℝ)) ++ "\n") :=
  claim_C6_amended fmtQ0 fmtR0 fmtT0 fmtC0 orZero 0 initState lineMX1 scMX1 (0, 0)
    rsMX1 outMX1 lex_lineMX1 (by decide) rfl procMX1

/- ## Claim C7 -/

/-- Claim C7 amended: provided the sticky feed rate after the line's scan
is positive, the elapsed machine time is non-decreasing across the line,
and strictly increases whenever the line moves the tracked position (i.e.
performs a move of nonzero planar distance).  The positivity hypothesis is
forced by the counterexample: a negative F token makes elapsed time go
backwards. -/
theorem claim_C7_amended (fmt : ℚ → String) (fmtR fmtTime fmtCoord : ℝ → String)
    (oracle : ℝ → Option (ℝ × ℝ)) (t0 : ℝ) (rs : RunState) (line : List Char) (sc : Scan)
    (rs1 : RunState) (out : List String)
    (hlex : lexLine fmt line (initScan rs.g rs.f) = some sc)
    (hf : 0 < sc.f)
    (hres : processLine fmt fmtR fmtTime fmtCoord oracle t0 rs line = some (rs1, out)) :
    rs.t ≤ rs1.t ∧ ((rs1.x, rs1.y) ≠ (rs.x, rs.y) → rs.t < rs1.t) := by
  unfold processLine at hres
  rw [hlex] at hres
  by_cases hxy : (sc.sx.isSome || sc.sy.isSome) = true
  · rcases hoff : oracle (t0 + rs.t) with _ | off
    · simp [hxy, hoff] at hres
    · simp only [hxy, if_true, hoff] at hres
      by_cases heff : (if sc.g = some 0 then G0_METERS_PER_SECOND else sc.f) = 0
      · rw [if_pos heff] at hres; cases hres
      · rw [if_neg heff] at hres
        injection hres with hres
        injection hres with h1 h2
        have heffpos : (0:ℚ) < (if sc.g = some 0 then G0_METERS_PER_SECOND else sc.f) := by
          by_cases hg : sc.g = some 0
          · rw [if_pos hg]; norm_num [G0_METERS_PER_SECOND, IPM_TO_MPS, INCH_TO_METER]
          · rw [if_neg hg]; exact hf
        have heffR : (0:ℝ) <
            ((if sc.g = some 0 then G0_METERS_PER_SECOND else sc.f : ℚ) : ℝ) := by
          exact_mod_cast heffpos
        have ht := congrArg RunState.t h1
        have hx := congrArg RunState.x h1
        have hy := congrArg RunState.y h1
        dsimp only at ht hx hy
        constructor
        · rw [← ht]
          have := div_nonneg (get_length_nonneg
            (subtract ⟨rs.x, rs.y, 0⟩
              ⟨resolveCoord sc.sx rs.x - off.1, resolveCoord sc.sy rs.y - off.2, 0⟩)) heffR.le
          linarith
        · intro hne
          rw [← ht]
          have hnxy : resolveCoord sc.sx rs.x - off.1 ≠ rs.x ∨
              resolveCoord sc.sy rs.y - off.2 ≠ rs.y := by
            by_contra hcon
            push_neg at hcon
            apply hne
            rw [← hx, ← hy, hcon.1, hcon.2]
          have hdotpos : 0 < dot
              (subtract ⟨rs.x, rs.y, 0⟩
                ⟨resolveCoord sc.sx rs.x - off.1, resolveCoord sc.sy rs.y - off.2, 0⟩)
              (subtract ⟨rs.x, rs.y, 0⟩
                ⟨resolveCoord sc.sx rs.x - off.1, resolveCoord sc.sy rs.y - off.2, 0⟩) := by
            unfold subtract dot
            simp only
            rcases hnxy with h | h
            · have h2 : rs.x - (resolveCoord sc.sx rs.x - off.1) ≠ 0 :=
                sub_ne_zero.mpr (Ne.symm h)
              nlinarith [mul_self_pos.mpr h2,
                mul_self_nonneg (rs.y - (resolveCoord sc.sy rs.y - off.2))]
            · have h2 : rs.y - (resolveCoord sc.sy rs.y - off.2) ≠ 0 :=
                sub_ne_zero.mpr (Ne.symm h)
              nlinarith [mul_self_pos.mpr h2,
                mul_self_nonneg (rs.x - (resolveCoord sc.sx rs.x - off.1))]
          have hdpos : 0 < get_length
              (subtract ⟨rs.x, rs.y, 0⟩
                ⟨resolveCoord sc.sx rs.x - off.1, resolveCoord sc.sy rs.y - off.2, 0⟩) := by
            unfold get_length
            exact Real.sqrt_pos.mpr hdotpos
          have := div_pos hdpos heffR
          linarith
  · have hb : (sc.sx.isSome || sc.sy.isSome) = false := by
      revert hxy; cases sc.sx.isSome || sc.sy.isSome <;> simp
    simp only [hb, Bool.false_eq_true, if_false] at hres
    injection hres with hres
    injection hres with h1 h2
    have ht := congrArg RunState.t h1
    have hx := congrArg RunState.x h1
    have hy := congrArg RunState.y h1
    dsimp only at ht hx hy
    constructor
    · rw [← ht]
    · intro hne
      exfalso
      apply hne
      rw [← hx, ← hy]

/-- Claim C7 counterexample: in the run `F-60` then `X1` from the initial
state (offset (0, 0), the exact offset at the frame's own instant), the
elapsed machine time is 0 after the first line and -1 after the second:
it decreases from one line to the next, because the source divides by the
signed feed rate with no sign check.  This refutes non-decrease as
stated. -/
theorem claim_C7_counterexample :
    runT [lineFneg] = some 0 ∧ runT [lineFneg, lineX1] = some (-1) ∧ ((-1:ℝ) < 0) := by
  refine ⟨?_, ?_, by norm_num⟩
  · unfold runT
    simp only [runLines, procFneg]
    simp [rsFneg, initState]
  · unfold runT
    simp only [runLines, procFneg, procX1neg]
    simp [rsC7]

/-- Witness for the amended claim C7: the line ` M3 X1` from the initial
state (positive sticky feed rate, zero offset) strictly increases the
elapsed machine time. -/
theorem claim_C7_witness : initState.t ≤ rsMX1.t ∧ initState.t < rsMX1.t := by
  have h := claim_C7_amended fmtQ0 fmtR0 fmtT0 fmtC0 orZero 0 initState lineMX1 scMX1
    rsMX1 outMX1 lex_lineMX1
    (by norm_num [scMX1, G0_METERS_PER_SECOND, IPM_TO_MPS, INCH_TO_METER]) procMX1
  exact ⟨h.1, h.2 (by norm_num [rsMX1, initState, Prod.ext_iff])⟩

/- ## Claim C8 -/

theorem lexStep_passive (fmt : ℚ → String) (sc : Scan) (ch : Char)
    (hst : sc.state = LexState.neutral ∨ sc.state = LexState.comment)
    (hsup : sc.suppress = false)
    (hok : stepState sc.state ch = LexState.neutral ∨
      stepState sc.state ch = LexState.comment) :
    lexStep fmt sc ch =
      some { sc with state := stepState sc.state ch, newLine := sc.newLine ++ [ch] } := by
  rcases hst with h | h
  · unfold lexStep lexStep1 stepState
    rw [h]
    unfold stepState at hok
    rw [h] at hok
    by_cases h1 : ch = '('
    · simp [h1, hsup]
    · by_cases h2 : ch.toUpper = 'G'
      · simp [h1, h2] at hok
      · by_cases h3 : ch.toUpper = 'X'
        · simp [h1, h2, h3] at hok
        · by_cases h4 : ch.toUpper = 'Y'
          · simp [h1, h2, h3, h4] at hok
          · by_cases h5 : ch.toUpper = 'F'
            · simp [h1, h2, h3, h4, h5] at hok
            · simp [h1, h2, h3, h4, h5, hsup, h]
  · unfold lexStep lexStep1 stepState
    rw [h]
    by_cases h1 : ch = ')'
    · simp [h1, hsup]
    · simp [h1, hsup, h]

theorem lexLine_tokenFree (fmt : ℚ → String) :
    ∀ (cs : List Char) (sc : Scan),
      (sc.state = LexState.neutral ∨ sc.state = LexState.comment) →
      sc.suppress = false →
      tokenFree sc.state cs = true →
      ∃ stf, (stf = LexState.neutral ∨ stf = LexState.comment) ∧
        lexLine fmt cs sc = some { sc with state := stf, newLine := sc.newLine ++ cs } := by
  intro cs
  induction cs with
  | nil =>
    intro sc hst hsup htf
    refine ⟨sc.state, hst, ?_⟩
    simp [lexLine]
  | cons ch rest ih =>
    intro sc hst hsup htf
    unfold tokenFree at htf
    simp only [Bool.and_eq_true, Bool.or_eq_true, decide_eq_true_eq] at htf
    obtain ⟨hok, htf2⟩ := htf
    have hstep := lexStep_passive fmt sc ch hst hsup hok
    obtain ⟨stf, hmem, heq⟩ :=
      ih { sc with state := stepState sc.state ch, newLine := sc.newLine ++ [ch] }
        hok hsup htf2
    refine ⟨stf, hmem, ?_⟩
    unfold lexLine
    rw [hstep]
    dsimp only
    rw [heq]
    simp

/-- Claim C8: a line containing no G/X/Y/F tokens (the scanner never leaves
the Neutral and InComment states) passes through verbatim: the engine's
output for the line is exactly the inserted elapsed-time bookkeeping
comment followed by the unmodified input line, and the run state is
untouched. -/
theorem claim_C8 (fmt : ℚ → String) (fmtR fmtTime fmtCoord : ℝ → String)
    (oracle : ℝ → Option (ℝ × ℝ)) (t0 : ℝ) (rs : RunState) (line : List Char)
    (htf : tokenFreeLine line = true) :
    processLine fmt fmtR fmtTime fmtCoord oracle t0 rs line =
      some (rs, ["(Time is " ++ fmtTime rs.t ++ ")\n", String.mk line]) := by
  obtain ⟨stf, hmem, heq⟩ := lexLine_tokenFree fmt line (initScan rs.g rs.f)
    (Or.inl rfl) rfl htf
  unfold processLine
  rw [heq]
  simp [initScan]

/-- Witness for claim C8: the comment-plus-literal line `(m3) q` passes
through verbatim behind its time comment, leaving the initial state
unchanged. -/
theorem claim_C8_witness :
    processLine fmtQ0 fmtR0 fmtT0 fmtC0 orZero 0 initState lineC8 =
      some (initState, ["(Time is )\n", "(m3) q\n"]) :=
  claim_C8 fmtQ0 fmtR0 fmtT0 fmtC0 orZero 0 initState lineC8 (by decide)

/- ## Claim C9 -/

theorem lexStep1_sfInv {fmt : ℚ → String} {sc sc1 : Scan} {ch : Char}
    (h : lexStep1 fmt sc ch = some sc1) (hinv : sfInv sc) : sfInv sc1 := by
  intro v hv
  unfold lexStep1 at h
  dsimp only at h
  repeat' split at h
  all_goals first
    | exact Option.noConfusion h
    | (injection h with h; subst h; exact hinv v hv)
    | (injection h with h; subst h;
       injection hv with hv; exact ⟨hv, by simp⟩)

theorem lexStep_sfInv {fmt : ℚ → String} {sc sc1 : Scan} {ch : Char}
    (h : lexStep fmt sc ch = some sc1) (hinv : sfInv sc) : sfInv sc1 := by
  unfold lexStep at h
  rcases h1 : lexStep1 fmt sc ch with _ | sc2
  · rw [h1] at h; cases h
  · rw [h1] at h
    injection h with h
    have h2 := lexStep1_sfInv h1 hinv
    by_cases hs : sc2.suppress = true
    · rw [if_pos hs] at h; rw [← h]; exact h2
    · rw [if_neg hs] at h; rw [← h]; exact h2

theorem lexLine_sfInv (fmt : ℚ → String) :
    ∀ (cs : List Char) (sc sc1 : Scan),
      lexLine fmt cs sc = some sc1 → sfInv sc → sfInv sc1 := by
  intro cs
  induction cs with
  | nil =>
    intro sc sc1 h hinv
    unfold lexLine at h
    injection h with h
    subst h
    exact hinv
  | cons ch rest ih =>
    intro sc sc1 h hinv
    unfold lexLine at h
    rcases hs : lexStep fmt sc ch with _ | sc2
    · rw [hs] at h; cases h
    · rw [hs] at h
      exact ih sc2 sc1 h (lexStep_sfInv hs hinv)

/-- Claim C9: a line with an F feed-rate token but no X or Y token updates
the sticky feed rate to the parsed value, emits the feed-rate bookkeeping
comment, and leaves elapsed machine time, the tracked coordinates and the
running bounds unchanged (the run state changes only in its modal `g` and
sticky `f`). -/
theorem claim_C9 (fmt : ℚ → String) (fmtR fmtTime fmtCoord : ℝ → String)
    (oracle : ℝ → Option (ℝ × ℝ)) (t0 : ℝ) (rs : RunState) (line : List Char)
    (sc : Scan) (v : ℚ)
    (hlex : lexLine fmt line (initScan rs.g rs.f) = some sc)
    (hx : sc.sx = none) (hy : sc.sy = none) (hsf : sc.sf = some v) :
    processLine fmt fmtR fmtTime fmtCoord oracle t0 rs line =
      some ({ rs with g := sc.g, f := sc.f },
        sc.comments ++ ["(Time is " ++ fmtTime rs.t ++ ")\n", String.mk sc.newLine]) ∧
    sc.f = v ∧ sc.comments ≠ [] := by
  have hinv : sfInv sc := lexLine_sfInv fmt line (initScan rs.g rs.f) sc hlex
    (by intro w hw; simp [initScan] at hw)
  obtain ⟨hfv, hcom⟩ := hinv v hsf
  refine ⟨?_, hfv, hcom⟩
  unfold processLine
  rw [hlex]
  simp [hx, hy]

/-- Witness for claim C9: the concrete line `F10.0` from the initial state
sets the sticky feed rate to 10 in/min = 127/30000 m/s, emits the feed-rate
comment, and leaves time, coordinates and bounds unchanged. -/
theorem claim_C9_witness :
    processLine fmtQ0 fmtR0 fmtT0 fmtC0 orZero 0 initState lineF10 =
      some (rsF10, ["(f is now , text was 10.0)\n", "(Time is )\n", "F10.0\n"]) ∧
    scF10.f = 127/30000 ∧ scF10.comments ≠ [] :=
  claim_C9 fmtQ0 fmtR0 fmtT0 fmtC0 orZero 0 initState lineF10 scF10 (127/30000)
    lex_lineF10 rfl rfl rfl

/- ## Claim C10 -/

theorem processLine_noXY (fmt : ℚ → String) (fmtR fmtTime fmtCoord : ℝ → String)
    (oracle : ℝ → Option (ℝ × ℝ)) (t0 : ℝ) (rs rs1 : RunState) (line : List Char)
    (out : List String)
    (hres : processLine fmt fmtR fmtTime fmtCoord oracle t0 rs line = some (rs1, out))
    (hno : ∀ sc, lexLine fmt line (initScan rs.g rs.f) = some sc →
      sc.sx = none ∧ sc.sy = none) :
    rs1.lastOffset = rs.lastOffset := by
  unfold processLine at hres
  rcases hl : lexLine fmt line (initScan rs.g rs.f) with _ | sc
  · rw [hl] at hres; cases hres
  · rw [hl] at hres
    obtain ⟨hx, hy⟩ := hno sc hl
    simp only [hx, hy, Option.isSome_none, Bool.or_self, Bool.false_eq_true, if_false] at hres
    injection hres with hres
    injection hres with h1 h2
    rw [← h1]

theorem runLines_noXY (fmt : ℚ → String) (fmtR fmtTime fmtCoord : ℝ → String)
    (oracle : ℝ → Option (ℝ × ℝ)) (t0 : ℝ) :
    ∀ (lines : List (List Char)) (rs rs1 : RunState) (out : List String),
      (∀ l ∈ lines, ∀ (g : Option ℤ) (f : ℚ) (sc : Scan),
        lexLine fmt l (initScan g f) = some sc → sc.sx = none ∧ sc.sy = none) →
      runLines fmt fmtR fmtTime fmtCoord oracle t0 rs lines = some (rs1, out) →
      rs1.lastOffset = rs.lastOffset := by
  intro lines
  induction lines with
  | nil =>
    intro rs rs1 out hno hrun
    unfold runLines at hrun
    injection hrun with hrun
    injection hrun with h1 h2
    rw [← h1]
  | cons l ls ih =>
    intro rs rs1 out hno hrun
    unfold runLines at hrun
    rcases hp : processLine fmt fmtR fmtTime fmtCoord oracle t0 rs l with _ | pr
    · rw [hp] at hrun; cases hrun
    · rw [hp] at hrun
      obtain ⟨rs2, out2⟩ := pr
      dsimp only at hrun
      rcases hr : runLines fmt fmtR fmtTime fmtCoord oracle t0 rs2 ls with _ | pr2
      · rw [hr] at hrun; cases hrun
      · rw [hr] at hrun
        obtain ⟨rs3, out3⟩ := pr2
        dsimp only at hrun
        injection hrun with hrun
        injection hrun with h1 h2
        have e1 : rs3.lastOffset = rs2.lastOffset :=
          ih rs2 rs3 out3 (fun l2 hl2 => hno l2 (List.mem_cons_of_mem _ hl2)) hr
        have e2 : rs2.lastOffset = rs.lastOffset :=
          processLine_noXY fmt fmtR fmtTime fmtCoord oracle t0 rs rs2 l out2 hp
            (fun sc hsc => hno l (List.mem_cons_self _ _) rs.g rs.f sc hsc)
        rw [← h1, e1, e2]

/-- Claim C10: for every input stream none of whose lines specifies an X or
Y coordinate (including the empty stream), a completed run still has
`last_offset = None`, and the end-of-run last-offset summary is not total:
`scalar_multiply(1/INCH_TO_METER, None)` fails (TypeError in the source,
none here), so the run aborts after writing the rewritten output instead of
printing the last-offset summary. -/
theorem claim_C10 (fmt : ℚ → String) (fmtR fmtTime fmtCoord : ℝ → String)
    (oracle : ℝ → Option (ℝ × ℝ)) (t0 : ℝ) (lines : List (List Char))
    (rs : RunState) (out : List String)
    (hno : ∀ l ∈ lines, ∀ (g : Option ℤ) (f : ℚ) (sc : Scan),
      lexLine fmt l (initScan g f) = some sc → sc.sx = none ∧ sc.sy = none)
    (hrun : runLines fmt fmtR fmtTime fmtCoord oracle t0 initState lines = some (rs, out)) :
    rs.lastOffset = none ∧ summaryOffset rs = none := by
  have h := runLines_noXY fmt fmtR fmtTime fmtCoord oracle t0 lines initState rs out hno hrun
  have hnone : rs.lastOffset = none := by rw [h]; rfl
  refine ⟨hnone, ?_⟩
  unfold summaryOffset
  rw [hnone]
  rfl

/-- Witness for claim C10: the empty input stream completes with
`last_offset = None` and the summary step fails. -/
theorem claim_C10_witness : summaryOffset initState = none :=
  (claim_C10 fmtQ0 fmtR0 fmtT0 fmtC0 orZero 0 [] initState []
    (by intro l hl; cases hl) rfl).2

end Solar

